import Mathlib

/-!
# Verification of the SystemPulse device-diagnostics core

Shallow embedding of `src/services/deviceService.ts` (the device-capability
inference pipeline: GPU prober, core-count estimator, CPU benchmark
statistics, score aggregator) together with theorems checking the
natural-language specification against it.

Conventions of the embedding:
* JavaScript numbers that hold millisecond durations, memory sizes in GB and
  refresh rates are modelled as exact rationals (`ℚ`); integer quantities
  (core counts, GL capability limits) as `ℕ`.
* `string.toLowerCase()` / `string.includes(pat)` are modelled character by
  character on `String.data`.
* Nullable JavaScript values are modelled as `Option`; the JavaScript
  "or-default" idiom `x || d` on numbers (which replaces both `null` and `0`
  by `d`) is modelled by `jsOrQ` / `jsOrNat`.
-/

namespace DeviceService

/-! ## String helpers (JS `toLowerCase` / `includes`) -/

/-- Does the second list start with the first one?  (Character-level model of
a JS string prefix test, used to build substring containment.) -/
def startsWithChars : List Char → List Char → Bool
  | [], _ => true
  | _ :: _, [] => false
  | p :: ps, c :: cs => p == c && startsWithChars ps cs

/-- `containsChars pat s` holds iff `pat` occurs contiguously in `s`; model of
JS `s.includes(pat)`. -/
def containsChars (pat : List Char) : List Char → Bool
  | [] => pat.isEmpty
  | c :: cs => startsWithChars pat (c :: cs) || containsChars pat cs

/-- Model of JS `String.prototype.toLowerCase` (ASCII, which covers every
pattern the source matches against). -/
def lowerStr (s : String) : String := ⟨s.data.map Char.toLower⟩

/-- Model of JS `s.includes(pat)`. -/
def strIncludes (s pat : String) : Bool := containsChars pat.data s.data

/-! ## Configuration constants (`CONFIG`, deviceService.ts lines 13-22) -/

namespace CONFIG

def lowCPUCoresThreshold : ℕ := 6

def highCPUCoresThreshold : ℕ := 8

def lowMemoryThreshold : ℚ := 4

def highMemoryThreshold : ℚ := 8

def minTextureSize : ℕ := 4096

def minVertexUniformVectors : ℕ := 1024

def slowDeviceThreshold : ℚ := 8

def fallbackCores : ℕ := 2

end CONFIG

/-- `WEAK_GPU_PATTERNS` (deviceService.ts line 24). -/
def WEAK_GPU_PATTERNS : List String :=
  ["intel", "mali", "adreno 3", "adreno 4", "adreno 5", "powervr"]

/-- `SOFTWARE_RENDERER_PATTERNS` (deviceService.ts lines 25-35). -/
def SOFTWARE_RENDERER_PATTERNS : List String :=
  ["microsoft basic render driver",
   "software renderer",
   "llvmpipe",
   "mesa llvmpipe",
   "swiftshader",
   "software rasterizer",
   "chromium software renderer",
   "software rendering",
   "cpu"]

/-! ## GPU prober (`detectGPU`, lines 84-120) and weak-GPU classifier -/

/-- The parameters read from a successfully acquired WebGL context.
`renderer`/`vendor` are `none` when the `WEBGL_debug_renderer_info`
extension is unavailable (lines 90-94). -/
structure GLContext where
  maxTextureSize : ℕ
  maxVertexUniformVectors : ℕ
  renderer : Option String
  vendor : Option String
deriving DecidableEq

/-- `GPUInfo` (types.ts). -/
structure GPUInfo where
  maxTextureSize : ℕ
  maxVertexUniformVectors : ℕ
  renderer : Option String
  vendor : Option String
deriving DecidableEq

/-- JS truthiness of a nullable string: `null` and `""` are falsy. -/
def jsTruthyStr : Option String → Bool
  | none => false
  | some s => !s.data.isEmpty

/-- `detectGPU` (lines 84-120), given a successfully acquired context.
The software-rasterizer / suspicious-size check (lines 96-109) sits inside
`if (renderer)`, so it only runs when a truthy renderer string was read.
(The JS `maxTextureSize || 0` on line 112 is the identity on a `ℕ` value.) -/
def detectGPU (ctx : GLContext) : Option GPUInfo :=
  let kept : GPUInfo :=
    { maxTextureSize := ctx.maxTextureSize
      maxVertexUniformVectors := ctx.maxVertexUniformVectors
      renderer := ctx.renderer
      vendor := ctx.vendor }
  if jsTruthyStr ctx.renderer then
    let rendererLower := lowerStr (ctx.renderer.getD "")
    let isSoftwareRenderer :=
      SOFTWARE_RENDERER_PATTERNS.any fun p => strIncludes rendererLower p
    let isLikelySoftware :=
      decide (ctx.maxTextureSize < 2048) || decide (ctx.maxVertexUniformVectors < 256)
    if isSoftwareRenderer || isLikelySoftware then none
    else some kept
  else some kept

/-- `checkIsWeakGPU` (lines 285-292). -/
def checkIsWeakGPU : Option GPUInfo → Bool
  | none => true
  | some gpu =>
    let isLowTextureSize := decide (gpu.maxTextureSize < CONFIG.minTextureSize)
    let isLowVertexUniforms :=
      decide (gpu.maxVertexUniformVectors < CONFIG.minVertexUniformVectors)
    let renderer := lowerStr (gpu.renderer.getD "")
    let isKnownWeakGPU := WEAK_GPU_PATTERNS.any fun p => strIncludes renderer p
    isLowTextureSize || isLowVertexUniforms || isKnownWeakGPU

/-! ## Platform classification and core-count estimation (lines 309-436) -/

/-- The ambient navigator identification strings.  The source lowercases each
with a `|| ''` fallback; an absent value is modelled as `""`. -/
structure NavigatorEnv where
  platform : String
  userAgent : String
  vendor : String
deriving DecidableEq

/-- `isWindows` (lines 309-313). -/
def isWindows (nav : NavigatorEnv) : Bool :=
  strIncludes (lowerStr nav.platform) "win" || strIncludes (lowerStr nav.userAgent) "windows"

/-- `isAppleSilicon` (lines 317-357). -/
def isAppleSilicon (nav : NavigatorEnv) : Bool :=
  let platform := lowerStr nav.platform
  let userAgent := lowerStr nav.userAgent
  let vendor := lowerStr nav.vendor
  let isMac := strIncludes platform "mac" || strIncludes userAgent "mac os"
  let isApple := strIncludes vendor "apple" || strIncludes userAgent "apple"
  let isARM := strIncludes userAgent "arm" || strIncludes userAgent "aarch64" ||
      strIncludes userAgent "apple m" || strIncludes userAgent "apple silicon"
  let isIntelMac := strIncludes userAgent "intel" || strIncludes userAgent "x86_64" ||
      strIncludes userAgent "x86-64" || strIncludes userAgent "intel mac"
  if isMac && isApple then
    if isARM then true
    else if isIntelMac then false
    else true
  else false

/-- `estimatePhysicalCores` (lines 363-403).  `Math.floor(x / 2)` on a
nonnegative integer is `ℕ` division. -/
def estimatePhysicalCores (nav : NavigatorEnv) (logicalCores : ℕ) : ℕ :=
  if isAppleSilicon nav then logicalCores
  else if logicalCores ≤ 2 then logicalCores
  else if logicalCores % 2 = 1 then logicalCores
  else if isWindows nav then logicalCores / 2
  else if 16 ≤ logicalCores ∧ logicalCores % 4 = 0 then logicalCores / 2
  else logicalCores

/-- The full physical-core computation of `getDiagnosticData`
(lines 405-436): the Mac special case for known Apple-Silicon core counts
(16, 12, 10, 8), falling back to `estimatePhysicalCores`. -/
def physicalCoresOf (nav : NavigatorEnv) (logicalCores : ℕ) : ℕ :=
  let platform := lowerStr nav.platform
  let userAgent := lowerStr nav.userAgent
  let vendor := lowerStr nav.vendor
  let isMac := strIncludes platform "mac" || strIncludes userAgent "mac os"
  let isApple := strIncludes vendor "apple" || strIncludes userAgent "apple"
  if isMac && isApple then
    if logicalCores = 16 ∨ logicalCores = 12 ∨ logicalCores = 10 ∨ logicalCores = 8 then
      logicalCores
    else estimatePhysicalCores nav logicalCores
  else estimatePhysicalCores nav logicalCores

/-! ## CPU benchmark statistics (`runCPUStatsBenchmark`, lines 177-283)

A round either throws (its duration resolves to `null`, modelled `none`) or
yields a duration.  The statistics stage is a pure function of the collected
valid durations; the orchestration-level `catch` (lines 269-272) is modelled
by an `Except` input.

The source compares `coefficientOfVariation = stdDev / mean` (lines 236-240,
with `cov = 0` when `mean ≤ 0`) against the positive constants 0.1, 0.15 and
0.25.  Over the reals, for `t > 0` and `cov ≥ 0`, `cov < t ↔ cov² < t²` and
`cov > t ↔ cov² > t²`, so the embedding carries the exactly-rational square
`covSqOf = variance / mean²` and compares it against the squared constants;
this renders each branch condition of the source exactly, without an
irrational square root. -/

/-- `BenchmarkResult` (types.ts). -/
structure BenchmarkResult where
  isSlow : Bool
  duration : Option ℚ
deriving DecidableEq

/-- `minValidResults` (line 186). -/
def minValidResults : ℕ := 5

/-- Median (lines 225-229): average of the two middle values for even
length, the middle value for odd length. -/
def medianOf (v : List ℚ) : ℚ :=
  let medianIndex := v.length / 2
  if v.length % 2 = 0 then (v.getD (medianIndex - 1) 0 + v.getD medianIndex 0) / 2
  else v.getD medianIndex 0

/-- The slice kept by the trimmed mean (lines 231-233):
`slice(trimCount, length - trimCount)` with `trimCount = ⌊length·0.25⌋`. -/
def trimmedOf (v : List ℚ) : List ℚ :=
  let trimCount := v.length / 4
  (v.take (v.length - trimCount)).drop trimCount

/-- Trimmed mean (line 234). -/
def trimmedMeanOf (v : List ℚ) : ℚ := (trimmedOf v).sum / ((trimmedOf v).length : ℚ)

/-- Mean (line 237). -/
def meanOf (v : List ℚ) : ℚ := v.sum / (v.length : ℚ)

/-- Population variance (line 238). -/
def varianceOf (v : List ℚ) : ℚ :=
  (v.map fun x => (x - meanOf v) ^ 2).sum / (v.length : ℚ)

/-- The square of `coefficientOfVariation` (lines 239-240): `(stdDev/mean)²`
when `mean > 0`, else `0` (the source sets `cov = 0` in that case). -/
def covSqOf (v : List ℚ) : ℚ :=
  if 0 < meanOf v then varianceOf v / (meanOf v) ^ 2 else 0

/-- IQR outlier rejection on the sorted sample list (lines 209-223):
quartiles at `⌊n·0.25⌋` / `⌊n·0.75⌋`, keep `[Q1 - 1.5·IQR, Q3 + 1.5·IQR]`,
revert to the full list when fewer than `minValidResults` remain. -/
def keptResults (sorted : List ℚ) : List ℚ :=
  let q1 := sorted.getD (sorted.length / 4) 0
  let q3 := sorted.getD (sorted.length * 3 / 4) 0
  let iqr := q3 - q1
  let lowerBound := q1 - 3/2 * iqr
  let upperBound := q3 + 3/2 * iqr
  let filteredResults := sorted.filter fun r => decide (lowerBound ≤ r) && decide (r ≤ upperBound)
  if minValidResults ≤ filteredResults.length then filteredResults else sorted

/-- Sort ascending, then reject outliers: the `validResults` of lines 206-223. -/
def validResultsOf (results : List ℚ) : List ℚ :=
  keptResults (List.insertionSort (· ≤ ·) results)

/-- Central-tendency selection (lines 244-254): trimmed mean below
`cov < 0.1`, median in the `cov < 0.25` branch, median in the high-variance
branch. -/
def stableDurationOf (v : List ℚ) : ℚ :=
  if covSqOf v < (1/10 : ℚ) ^ 2 then trimmedMeanOf v
  else if covSqOf v < (1/4 : ℚ) ^ 2 then medianOf v
  else medianOf v

/-- Variance-aware threshold adaptation (lines 258-265): ×1.75 above
`cov > 0.25`, ×1.5 above `cov > 0.15`, else the base threshold. -/
def adjustedThresholdOf (v : List ℚ) : ℚ :=
  if (1/4 : ℚ) ^ 2 < covSqOf v then CONFIG.slowDeviceThreshold * (7/4)
  else if (3/20 : ℚ) ^ 2 < covSqOf v then CONFIG.slowDeviceThreshold * (3/2)
  else CONFIG.slowDeviceThreshold

/-- The statistics stage of `runCPUStatsBenchmark` (lines 200-268), as a
function of the collected valid durations. -/
def computeStats (results : List ℚ) : BenchmarkResult :=
  if results.length < minValidResults then { isSlow := false, duration := none }
  else
    { isSlow := decide (adjustedThresholdOf (validResultsOf results) <
        stableDurationOf (validResultsOf results))
      duration := some (stableDurationOf (validResultsOf results)) }

/-- Sample collection (lines 189-198): a round contributes iff it did not
throw (`duration !== null`) and its duration is `> 0`. -/
def collectValidSamples (rounds : List (Option ℚ)) : List ℚ :=
  (rounds.filterMap id).filter fun d => decide (0 < d)

/-- `runCPUStatsBenchmark` (lines 177-283): the orchestration either throws
(`Except.error`, resolved by the catch of lines 269-272) or yields the list
of per-round outcomes. -/
def runCPUStatsBenchmark : Except Unit (List (Option ℚ)) → BenchmarkResult
  | Except.error _ => { isSlow := false, duration := none }
  | Except.ok rounds => computeStats (collectValidSamples rounds)

/-! ## Score aggregation (`getDiagnosticData`, lines 294-520) -/

/-- `BatteryInfo` (types.ts). -/
structure BatteryInfo where
  level : Option ℚ
  charging : Option Bool
  supported : Bool
deriving DecidableEq

/-- `ScoreDetails` (types.ts). -/
structure ScoreDetails where
  lowCPUCores : Bool
  lowMemory : Bool
  weakGPU : Bool
  slowDevice : Bool
  throttledState : Bool
  totalScore : ℕ
deriving DecidableEq

/-- `PerformanceLevel` (types.ts). -/
inductive PerformanceLevel where
  | LOW
  | MEDIUM
  | HIGH
deriving DecidableEq

/-- JS `x || d` on a nullable rational: `null` and `0` are falsy. -/
def jsOrQ (x : Option ℚ) (d : ℚ) : ℚ :=
  match x with
  | none => d
  | some v => if v = 0 then d else v

/-- JS `x || d` on a nullable natural: `undefined` and `0` are falsy. -/
def jsOrNat (x : Option ℕ) (d : ℕ) : ℕ :=
  match x with
  | none => d
  | some v => if v = 0 then d else v

/-- JS truthiness of a nullable boolean: only `true` is truthy. -/
def jsTruthyBool : Option Bool → Bool
  | some true => true
  | _ => false

/-- The environment readings `getDiagnosticData` aggregates (the results of
the `Promise.all` of lines 295-302 that feed scoring, plus the ambient
navigator fields).  Connection and storage data are read but never scored and
are omitted. -/
structure DiagnosticInputs where
  gpu : Option GPUInfo
  battery : BatteryInfo
  refreshRate : ℚ
  slowDeviceResult : BenchmarkResult
  rawMemory : Option ℚ
  hardwareConcurrency : Option ℕ
  nav : NavigatorEnv
deriving DecidableEq

/-- The scored part of `DiagnosticResult`: tier, score details, and the
capability fields the tier derivation reads. -/
structure DiagnosticView where
  performanceLevel : PerformanceLevel
  cpuCores : ℕ
  deviceMemory : Option ℚ
  isMemoryCapped : Bool
  hasWeakGPU : Bool
  refreshRate : ℚ
  slowDevice : BenchmarkResult
  scoreDetails : ScoreDetails
deriving DecidableEq

/-- `getDiagnosticData` (lines 294-520), scoring and tier derivation.
Flags and score (lines 459-496): `score` starts at 0 and each satisfied
condition increments it and sets its flag; battery throttling (line 492)
only ever sets the informational `throttledState`.  Tier (lines 498-510). -/
def getDiagnosticData (i : DiagnosticInputs) : DiagnosticView :=
  let rawMemory := i.rawMemory
  let isMemoryCapped := decide (rawMemory = some (8 : ℚ))
  let logicalCores := jsOrNat i.hardwareConcurrency CONFIG.fallbackCores
  let physicalCores := physicalCoresOf i.nav logicalCores
  let hasWeakGPU := checkIsWeakGPU i.gpu
  let lowCPUCores := decide (physicalCores < CONFIG.lowCPUCoresThreshold)
  let memory := jsOrQ rawMemory 2
  let lowMemory := decide (memory ≤ CONFIG.lowMemoryThreshold)
  let slowDevice := i.slowDeviceResult.isSlow
  let throttledState := i.battery.supported && decide (jsOrQ i.battery.level 0 < 20) &&
      !(jsTruthyBool i.battery.charging)
  let score := cond lowCPUCores 1 0 + cond lowMemory 1 0 + cond hasWeakGPU 1 0 +
      cond slowDevice 1 0
  let refreshVal := if i.refreshRate = 0 then (0 : ℚ) else i.refreshRate
  let memHigh : Bool :=
    match rawMemory with
    | none => false
    | some m => decide (CONFIG.highMemoryThreshold ≤ m)
  let performanceLevel :=
    if 2 ≤ score then PerformanceLevel.LOW
    else if decide (CONFIG.highCPUCoresThreshold ≤ physicalCores) && memHigh &&
        !hasWeakGPU && decide ((90 : ℚ) ≤ refreshVal) then PerformanceLevel.HIGH
    else PerformanceLevel.MEDIUM
  { performanceLevel := performanceLevel
    cpuCores := physicalCores
    deviceMemory := rawMemory
    isMemoryCapped := isMemoryCapped
    hasWeakGPU := hasWeakGPU
    refreshRate := i.refreshRate
    slowDevice := i.slowDeviceResult
    scoreDetails :=
      { lowCPUCores := lowCPUCores
        lowMemory := lowMemory
        weakGPU := hasWeakGPU
        slowDevice := slowDevice
        throttledState := throttledState
        totalScore := score } }

/-! ## Concrete environments used by counterexamples and witnesses -/

/-- Navigator strings of an Intel-flagged Mac. -/
def intelMacEnv : NavigatorEnv :=
  { platform := "MacIntel", userAgent := "Intel Mac OS X", vendor := "Apple Computer, Inc." }

/-- Navigator strings of a Windows desktop. -/
def windowsEnv : NavigatorEnv :=
  { platform := "Win32", userAgent := "Windows NT 10.0", vendor := "Google Inc." }

/-- Navigator strings of an Apple-Silicon Mac. -/
def appleSiliconEnv : NavigatorEnv :=
  { platform := "MacIntel", userAgent := "Mac OS arm", vendor := "Apple Computer, Inc." }

/-- A context acquired without the debug-renderer-info extension, reporting
capability limits typical of a software rasterizer. -/
def noRendererCtx : GLContext :=
  { maxTextureSize := 1024, maxVertexUniformVectors := 16, renderer := none, vendor := none }

/-! ## C1 — software-rasterizer exclusion in `detectGPU` -/

/-- C1, counterexample.  The claim asserts that a reported maximum texture
size below 2048 alone suffices for `detectGPU` to return `absent`, "for every
context, whether or not a renderer string is available".  A context with no
renderer string and texture size 1024 is *not* rejected: the suspicious-size
check (line 104) only runs inside `if (renderer)` (line 97). -/
theorem claim_C1_counterexample :
    noRendererCtx.renderer = none ∧ noRendererCtx.maxTextureSize < 2048 ∧
    detectGPU noRendererCtx ≠ none := by decide

/-- C1, amended: for every successfully acquired context whose renderer
string is present and nonempty, if the lowercased renderer contains one of
the fixed software-rasterizer signatures, or the reported maximum texture
size is < 2048, or the reported maximum vertex-uniform vector count is
< 256, then `detectGPU` returns `absent` (`none`).  (Without a truthy
renderer string, the probe keeps the context's capabilities regardless.) -/
theorem claim_C1_amended (ctx : GLContext) (r : String)
    (hr : ctx.renderer = some r) (hne : r.data ≠ [])
    (hcond : SOFTWARE_RENDERER_PATTERNS.any (fun p => strIncludes (lowerStr r) p) = true ∨
      ctx.maxTextureSize < 2048 ∨ ctx.maxVertexUniformVectors < 256) :
    detectGPU ctx = none := by
  have hie : r.data.isEmpty = false := by simp [List.isEmpty_iff, hne]
  unfold detectGPU
  rw [hr]
  simp only [jsTruthyStr, hie, Option.getD_some, Bool.not_false, if_true]
  rcases hcond with h | h | h <;> simp [h]

/-- A context reporting a SwiftShader renderer together with large
capability limits. -/
def swiftShaderCtx : GLContext :=
  { maxTextureSize := 8192, maxVertexUniformVectors := 2048,
    renderer := some "SwiftShader", vendor := none }

/-- C1 witness: a SwiftShader renderer string with large reported limits is
rejected. -/
theorem claim_C1_amended_witness : detectGPU swiftShaderCtx = none :=
  claim_C1_amended swiftShaderCtx "SwiftShader" rfl (by decide) (Or.inl (by decide))

/-! ## C6 — even-count halving of the core estimator -/

/-- C6, counterexample.  The claim asserts `floor(c / 2)` for every even
`c > 2` on a conventional desktop x86 platform, "including Windows and
Intel-flagged Macs".  An Intel-flagged Mac is classified neither Apple
Silicon nor Windows, so the estimator returns 8 logical cores unchanged
rather than 4: only `isWindows()` (line 385) triggers the halving. -/
theorem claim_C6_counterexample :
    isAppleSilicon intelMacEnv = false ∧ isWindows intelMacEnv = false ∧
    estimatePhysicalCores intelMacEnv 8 = 8 ∧ physicalCoresOf intelMacEnv 8 = 8 ∧
    estimatePhysicalCores intelMacEnv 8 ≠ 8 / 2 := by decide

/-- C6, amended: for every even logical core count `c > 2` on a
Windows-tagged platform that is not classified Apple Silicon, the core
estimator returns `⌊c / 2⌋`.  (Intel-flagged Macs do not take this path.) -/
theorem claim_C6_amended (nav : NavigatorEnv) (c : ℕ) (hw : isWindows nav = true)
    (ha : isAppleSilicon nav = false) (h2 : 2 < c) (he : c % 2 = 0) :
    estimatePhysicalCores nav c = c / 2 := by
  unfold estimatePhysicalCores
  rw [if_neg (by simp [ha]), if_neg (by omega), if_neg (by omega), if_pos hw]

/-- C6 witness: Windows with 8 logical cores is estimated at 4 physical. -/
theorem claim_C6_amended_witness : estimatePhysicalCores windowsEnv 8 = 4 :=
  claim_C6_amended windowsEnv 8 (by decide) (by decide) (by decide) (by decide)

/-! ## C7 — identity cases of the core estimator -/

/-- C7: the core estimator returns its input unchanged (1) for every
`c ≤ 2` on every platform, (2) for every odd `c > 2` on every platform, and
(3) on an Apple-Silicon-classified platform for `c ∈ {8, 10, 12, 16}`. -/
theorem claim_C7_identity (nav : NavigatorEnv) (c : ℕ) :
    (c ≤ 2 → estimatePhysicalCores nav c = c) ∧
    (2 < c → c % 2 = 1 → estimatePhysicalCores nav c = c) ∧
    (isAppleSilicon nav = true → (c = 8 ∨ c = 10 ∨ c = 12 ∨ c = 16) →
      estimatePhysicalCores nav c = c) := by
  unfold estimatePhysicalCores
  by_cases ha : isAppleSilicon nav = true
  · simp [ha]
  · refine ⟨fun h => ?_, fun h1 h2 => ?_, fun h _ => absurd h ha⟩
    · rw [if_neg ha, if_pos h]
    · rw [if_neg ha, if_neg (by omega), if_pos h2]

/-- C7 witness: a small count, an odd count, and an Apple-Silicon count are
each returned unchanged. -/
theorem claim_C7_identity_witness :
    estimatePhysicalCores windowsEnv 2 = 2 ∧ estimatePhysicalCores windowsEnv 7 = 7 ∧
    estimatePhysicalCores appleSiliconEnv 12 = 12 :=
  ⟨(claim_C7_identity windowsEnv 2).1 (by decide),
   (claim_C7_identity windowsEnv 7).2.1 (by decide) (by decide),
   (claim_C7_identity appleSiliconEnv 12).2.2 (by decide) (by decide)⟩

/-! ## C8 — range invariant of the core estimate -/

/-- `estimatePhysicalCores` stays within `[1, logicalCores]`. -/
theorem estimatePhysicalCores_bounds (nav : NavigatorEnv) (c : ℕ) (hc : 1 ≤ c) :
    1 ≤ estimatePhysicalCores nav c ∧ estimatePhysicalCores nav c ≤ c := by
  unfold estimatePhysicalCores
  split_ifs <;> omega

/-- C8: for every logical core count `c ≥ 1` and every combination of
platform/vendor/user-agent signals, the full core estimate (including the
Mac known-core-count special case of lines 405-436) satisfies
`1 ≤ estimate ≤ c`. -/
theorem claim_C8_core_estimate_range (nav : NavigatorEnv) (c : ℕ) (hc : 1 ≤ c) :
    1 ≤ physicalCoresOf nav c ∧ physicalCoresOf nav c ≤ c := by
  simp only [physicalCoresOf]
  split_ifs
  · omega
  · exact estimatePhysicalCores_bounds nav c hc
  · exact estimatePhysicalCores_bounds nav c hc

/-- C8 witness at a Windows environment with 7 logical cores. -/
theorem claim_C8_core_estimate_range_witness :
    1 ≤ physicalCoresOf windowsEnv 7 ∧ physicalCoresOf windowsEnv 7 ≤ 7 :=
  claim_C8_core_estimate_range windowsEnv 7 (by decide)

/-! ## C5 — insufficient or failed benchmark runs are never slow -/

/-- C5: whenever fewer than 5 valid samples are collected (a round is valid
iff it did not throw and its duration is positive), and also whenever the
benchmark orchestration itself throws, `runCPUStatsBenchmark` returns
`{ stableDurationMs := null, isSlow := false }`. -/
theorem claim_C5_insufficient_not_slow (input : Except Unit (List (Option ℚ)))
    (h : match input with
      | Except.error _ => True
      | Except.ok rounds => (collectValidSamples rounds).length < minValidResults) :
    runCPUStatsBenchmark input = { isSlow := false, duration := none } := by
  cases input with
  | error e => rfl
  | ok rounds =>
    have hlen : (collectValidSamples rounds).length < minValidResults := h
    show computeStats (collectValidSamples rounds) = { isSlow := false, duration := none }
    unfold computeStats
    rw [if_pos hlen]

/-- C5 witness: eleven thrown rounds produce no valid sample and a
null-duration, non-slow verdict. -/
theorem claim_C5_insufficient_not_slow_witness :
    runCPUStatsBenchmark (Except.ok (List.replicate 11 (none : Option ℚ))) =
      { isSlow := false, duration := none } :=
  claim_C5_insufficient_not_slow _
    (show (collectValidSamples (List.replicate 11 (none : Option ℚ))).length <
      minValidResults by decide)

/-! ## C9 — battery never influences scoring or tier -/

/-- C9: for any two battery readings with all other inputs held equal, the
four scored flags, the total score and the performance tier are identical;
battery feeds only the informational `throttledState`. -/
theorem claim_C9_battery_noninterference (i : DiagnosticInputs) (b₁ b₂ : BatteryInfo) :
    (getDiagnosticData { i with battery := b₁ }).scoreDetails.lowCPUCores =
      (getDiagnosticData { i with battery := b₂ }).scoreDetails.lowCPUCores ∧
    (getDiagnosticData { i with battery := b₁ }).scoreDetails.lowMemory =
      (getDiagnosticData { i with battery := b₂ }).scoreDetails.lowMemory ∧
    (getDiagnosticData { i with battery := b₁ }).scoreDetails.weakGPU =
      (getDiagnosticData { i with battery := b₂ }).scoreDetails.weakGPU ∧
    (getDiagnosticData { i with battery := b₁ }).scoreDetails.slowDevice =
      (getDiagnosticData { i with battery := b₂ }).scoreDetails.slowDevice ∧
    (getDiagnosticData { i with battery := b₁ }).scoreDetails.totalScore =
      (getDiagnosticData { i with battery := b₂ }).scoreDetails.totalScore ∧
    (getDiagnosticData { i with battery := b₁ }).performanceLevel =
      (getDiagnosticData { i with battery := b₂ }).performanceLevel :=
  ⟨rfl, rfl, rfl, rfl, rfl, rfl⟩

/-! ## C4 — the four scored flags and the bounded total score -/

/-- Effective memory per the specification: the reported memory when known,
a default of 2 when unknown. -/
def specEffectiveMemory (m : Option ℚ) : ℚ := m.getD 2

/-- C4: `totalScore` counts exactly the four scored flags, each worth one
point (so it lies in `[0, 4]`); `lowCPUCores` iff the core estimate is
below 6, `lowMemory` iff the effective memory (reported, defaulting to 2
when unknown — so unknown memory sets the flag) is at most 4, `weakGPU` iff
the weak-GPU classifier fires, `slowDevice` iff the benchmark verdict is
slow. -/
theorem claim_C4_scoring (i : DiagnosticInputs) :
    ((getDiagnosticData i).scoreDetails.lowCPUCores =
      decide ((getDiagnosticData i).cpuCores < 6)) ∧
    ((getDiagnosticData i).scoreDetails.lowMemory =
      decide (specEffectiveMemory i.rawMemory ≤ 4)) ∧
    ((getDiagnosticData i).scoreDetails.weakGPU = checkIsWeakGPU i.gpu) ∧
    ((getDiagnosticData i).scoreDetails.slowDevice = i.slowDeviceResult.isSlow) ∧
    ((getDiagnosticData i).scoreDetails.totalScore =
      cond (getDiagnosticData i).scoreDetails.lowCPUCores 1 0 +
      cond (getDiagnosticData i).scoreDetails.lowMemory 1 0 +
      cond (getDiagnosticData i).scoreDetails.weakGPU 1 0 +
      cond (getDiagnosticData i).scoreDetails.slowDevice 1 0) ∧
    ((getDiagnosticData i).scoreDetails.totalScore ≤ 4) ∧
    (i.rawMemory = none → (getDiagnosticData i).scoreDetails.lowMemory = true) := by
  refine ⟨rfl, ?_, rfl, rfl, rfl, ?_, ?_⟩
  · show decide (jsOrQ i.rawMemory 2 ≤ CONFIG.lowMemoryThreshold) =
      decide (specEffectiveMemory i.rawMemory ≤ 4)
    cases hm : i.rawMemory with
    | none => rfl
    | some v =>
      by_cases hv : v = 0
      · subst hv
        simp [jsOrQ, specEffectiveMemory, CONFIG.lowMemoryThreshold, decide_eq_decide]
        norm_num
      · simp [jsOrQ, specEffectiveMemory, hv, CONFIG.lowMemoryThreshold]
  · have h4 : ∀ a b c d : Bool,
        (cond a 1 0 + cond b 1 0 + cond c 1 0 + cond d 1 0 : ℕ) ≤ 4 := by decide
    exact h4 _ _ _ _
  · intro h
    show decide (jsOrQ i.rawMemory 2 ≤ CONFIG.lowMemoryThreshold) = true
    rw [h]
    show decide ((2 : ℚ) ≤ 4) = true
    norm_num

/-- A capable discrete-GPU reading. -/
def rtxGPU : GPUInfo :=
  { maxTextureSize := 8192
    maxVertexUniformVectors := 2048
    renderer := some "NVIDIA GeForce RTX"
    vendor := none }

/-- Diagnostic inputs with unknown reported memory. -/
def unknownMemInputs : DiagnosticInputs :=
  { gpu := some rtxGPU
    battery := { level := some 50, charging := some true, supported := true }
    refreshRate := 60
    slowDeviceResult := { isSlow := false, duration := some 5 }
    rawMemory := none
    hardwareConcurrency := some 8
    nav := windowsEnv }

/-- C4 witness: unknown memory defaults to 2 ≤ 4 and sets `lowMemory`. -/
theorem claim_C4_scoring_witness :
    (getDiagnosticData unknownMemInputs).scoreDetails.lowMemory = true :=
  (claim_C4_scoring unknownMemInputs).2.2.2.2.2.2 (by rfl)

/-! ## C3 — tier derivation -/

/-- The HIGH-tier memory condition per the specification: reported memory is
known and at least 8 (so a capped report of exactly 8 qualifies). -/
def specMemoryHigh (m : Option ℚ) : Bool :=
  match m with
  | none => false
  | some v => decide (8 ≤ v)

/-- Tier derivation per the specification, evaluated in order on the
aggregated view. -/
def specTier (v : DiagnosticView) : PerformanceLevel :=
  if 2 ≤ v.scoreDetails.totalScore then PerformanceLevel.LOW
  else if 8 ≤ v.cpuCores ∧ specMemoryHigh v.deviceMemory = true ∧
      v.hasWeakGPU = false ∧ (90 : ℚ) ≤ v.refreshRate then PerformanceLevel.HIGH
  else PerformanceLevel.MEDIUM

/-- C3: the tier is derived exactly in the specified order — score ≥ 2
yields LOW; otherwise cores ≥ 8, known memory ≥ 8, a non-weak GPU and
refresh rate ≥ 90 yield HIGH; otherwise MEDIUM — and a capped memory report
(exactly 8) satisfies the HIGH-tier memory condition. -/
theorem claim_C3_tier (i : DiagnosticInputs) :
    (getDiagnosticData i).performanceLevel = specTier (getDiagnosticData i) ∧
    (i.rawMemory = some 8 → specMemoryHigh (getDiagnosticData i).deviceMemory = true) := by
  constructor
  · show (getDiagnosticData i).performanceLevel = specTier (getDiagnosticData i)
    simp only [getDiagnosticData, specTier, specMemoryHigh, CONFIG.highCPUCoresThreshold,
      CONFIG.highMemoryThreshold]
    refine if_congr Iff.rfl rfl (if_congr ?_ rfl rfl)
    simp only [Bool.and_eq_true, decide_eq_true_eq, Bool.not_eq_true']
    by_cases hr : i.refreshRate = 0
    · simp only [hr, if_pos rfl]
      tauto
    · simp only [if_neg hr]
      tauto
  · intro h
    show specMemoryHigh i.rawMemory = true
    rw [h]
    show decide ((8 : ℚ) ≤ 8) = true
    norm_num

/-- Diagnostic inputs whose memory report sits exactly at the privacy cap. -/
def cappedMemInputs : DiagnosticInputs :=
  { gpu := some rtxGPU
    battery := { level := some 50, charging := some true, supported := true }
    refreshRate := 144
    slowDeviceResult := { isSlow := false, duration := some 5 }
    rawMemory := some 8
    hardwareConcurrency := some 16
    nav := windowsEnv }

/-- C3 witness: a capped memory report of exactly 8 satisfies the HIGH-tier
memory condition. -/
theorem claim_C3_tier_witness :
    specMemoryHigh (getDiagnosticData cappedMemInputs).deviceMemory = true :=
  (claim_C3_tier cappedMemInputs).2 (by rfl)

/-! ## C2 — the benchmark statistics pipeline, specification side

The following definitions restate, in the specification's own words, each
stage of the statistics pipeline: sort ascending, quartile-indexed IQR
filtering with a revert-when-starved rule, coefficient of variation over
the kept set (carried as its exact square, see the note on `covSqOf`),
trimmed-mean/median selection, and variance-adaptive thresholding. -/

/-- Specification: sort the valid samples ascending. -/
def specSortAsc (samples : List ℚ) : List ℚ := List.insertionSort (· ≤ ·) samples

/-- Specification: keep samples within `[Q1 - 1.5·IQR, Q3 + 1.5·IQR]` where
`Q1 = sorted[⌊n·0.25⌋]` and `Q3 = sorted[⌊n·0.75⌋]`, reverting to the full
set when fewer than 5 remain. -/
def specKeptSet (sorted : List ℚ) : List ℚ :=
  let q1 := sorted.getD (sorted.length / 4) 0
  let q3 := sorted.getD (sorted.length * 3 / 4) 0
  let iqr := q3 - q1
  let filtered :=
    sorted.filter fun r => decide (q1 - 3/2 * iqr ≤ r) && decide (r ≤ q3 + 3/2 * iqr)
  if filtered.length < 5 then sorted else filtered

/-- Specification: the median, averaging the two middle values for even
length. -/
def specMedian (l : List ℚ) : ℚ :=
  if l.length % 2 = 0 then (l.getD (l.length / 2 - 1) 0 + l.getD (l.length / 2) 0) / 2
  else l.getD (l.length / 2) 0

/-- Specification: the trimmed mean, dropping `⌊n·0.25⌋` values from each
end and averaging the remainder. -/
def specTrimmedMean (l : List ℚ) : ℚ :=
  let k := l.length / 4
  let kept := (l.drop k).take (l.length - 2 * k)
  kept.sum / (kept.length : ℚ)

/-- Specification: the squared coefficient of variation `(stdDev/mean)²`
over a sample set (`0` when the mean is not positive). -/
def specCovSq (l : List ℚ) : ℚ :=
  let mean := l.sum / (l.length : ℚ)
  let variance := (l.map fun x => (x - mean) ^ 2).sum / (l.length : ℚ)
  if 0 < mean then variance / mean ^ 2 else 0

/-- Specification: the stable duration is the trimmed mean when
`CoV < 0.10` and otherwise the median. -/
def specStable (l : List ℚ) : ℚ :=
  if specCovSq l < (1/10 : ℚ) ^ 2 then specTrimmedMean l else specMedian l

/-- Specification: the adjusted threshold is the base threshold ×1.75 when
`CoV > 0.25`, ×1.5 when `CoV > 0.15`, else unmodified. -/
def specAdjusted (l : List ℚ) : ℚ :=
  if (1/4 : ℚ) ^ 2 < specCovSq l then CONFIG.slowDeviceThreshold * (7/4)
  else if (3/20 : ℚ) ^ 2 < specCovSq l then CONFIG.slowDeviceThreshold * (3/2)
  else CONFIG.slowDeviceThreshold

/-- Specification: the full statistics verdict on a valid sample set. -/
def specBenchVerdict (samples : List ℚ) : BenchmarkResult :=
  let kept := specKeptSet (specSortAsc samples)
  { isSlow := decide (specAdjusted kept < specStable kept)
    duration := some (specStable kept) }

theorem specKeptSet_eq (s : List ℚ) : specKeptSet s = keptResults s := by
  simp only [specKeptSet, keptResults, minValidResults]
  split_ifs <;> first | rfl | omega

theorem specMedian_eq (l : List ℚ) : specMedian l = medianOf l := rfl

theorem specTrimmedMean_eq (l : List ℚ) : specTrimmedMean l = trimmedMeanOf l := by
  have ht : trimmedOf l = (l.drop (l.length / 4)).take (l.length - 2 * (l.length / 4)) := by
    unfold trimmedOf
    rw [List.drop_take]
    congr 1
    omega
  simp only [specTrimmedMean, trimmedMeanOf, ht]

theorem specCovSq_eq (l : List ℚ) : specCovSq l = covSqOf l := rfl

theorem specStable_eq (l : List ℚ) : specStable l = stableDurationOf l := by
  simp only [specStable, stableDurationOf, specCovSq_eq, specTrimmedMean_eq, specMedian_eq,
    ite_self]

theorem specAdjusted_eq (l : List ℚ) : specAdjusted l = adjustedThresholdOf l := by
  simp only [specAdjusted, adjustedThresholdOf, specCovSq_eq]

/-- C2: on every run with at least 5 valid samples, the statistics stage
computes its verdict exactly as specified: sort ascending; quartiles at
`⌊n·0.25⌋`/`⌊n·0.75⌋`; keep `[Q1 - 1.5·IQR, Q3 + 1.5·IQR]`, reverting to
the full set when fewer than 5 remain; the stable duration is the trimmed
mean when `CoV < 0.10` and otherwise the median; the threshold is ×1.75
above `CoV > 0.25`, ×1.5 above `CoV > 0.15`, else unmodified; and
`isSlow = stableDuration > adjustedThreshold`. -/
theorem claim_C2_benchmark_statistics (samples : List ℚ) (h : 5 ≤ samples.length) :
    computeStats samples = specBenchVerdict samples := by
  unfold computeStats specBenchVerdict specSortAsc validResultsOf minValidResults
  rw [if_neg (by omega)]
  simp only [specKeptSet_eq, specStable_eq, specAdjusted_eq]

/-- C2 witness at a concrete five-sample run. -/
theorem claim_C2_benchmark_statistics_witness :
    5 ≤ ([10, 10, 10, 10, 10] : List ℚ).length ∧
    computeStats [10, 10, 10, 10, 10] = specBenchVerdict [10, 10, 10, 10, 10] :=
  ⟨by decide, claim_C2_benchmark_statistics _ (by decide)⟩

/-! ## C10 — the reported stable duration lies within the measured range -/

theorem getD_mem (l : List ℚ) (n : ℕ) (d : ℚ) (h : n < l.length) : l.getD n d ∈ l := by
  rw [List.getD_eq_getElem l d h]
  exact List.getElem_mem h

theorem le_medianOf (v : List ℚ) (m : ℚ) (hv : 0 < v.length) (h : ∀ x ∈ v, m ≤ x) :
    m ≤ medianOf v := by
  unfold medianOf
  split_ifs with he
  · have m1 := h _ (getD_mem v (v.length / 2 - 1) 0 (by omega))
    have m2 := h _ (getD_mem v (v.length / 2) 0 (by omega))
    linarith
  · exact h _ (getD_mem v (v.length / 2) 0 (by omega))

theorem medianOf_le (v : List ℚ) (M : ℚ) (hv : 0 < v.length) (h : ∀ x ∈ v, x ≤ M) :
    medianOf v ≤ M := by
  unfold medianOf
  split_ifs with he
  · have m1 := h _ (getD_mem v (v.length / 2 - 1) 0 (by omega))
    have m2 := h _ (getD_mem v (v.length / 2) 0 (by omega))
    linarith
  · exact h _ (getD_mem v (v.length / 2) 0 (by omega))

theorem trimmedOf_subset (v : List ℚ) : trimmedOf v ⊆ v := by
  unfold trimmedOf
  intro x hx
  exact List.take_subset _ _ (List.drop_subset _ _ hx)

theorem trimmedOf_length (v : List ℚ) :
    (trimmedOf v).length = v.length - v.length / 4 - v.length / 4 := by
  unfold trimmedOf
  rw [List.length_drop, List.length_take]
  omega

theorem le_trimmedMeanOf (v : List ℚ) (m : ℚ) (hv : 0 < v.length) (h : ∀ x ∈ v, m ≤ x) :
    m ≤ trimmedMeanOf v := by
  have hlen : 0 < (trimmedOf v).length := by rw [trimmedOf_length]; omega
  have hb : ∀ x ∈ trimmedOf v, m ≤ x := fun x hx => h x (trimmedOf_subset v hx)
  have hsum : ((trimmedOf v).length : ℚ) * m ≤ (trimmedOf v).sum := by
    have hs := List.card_nsmul_le_sum (trimmedOf v) m hb
    rwa [nsmul_eq_mul] at hs
  unfold trimmedMeanOf
  rw [le_div_iff₀ (by exact_mod_cast hlen)]
  linarith

theorem trimmedMeanOf_le (v : List ℚ) (M : ℚ) (hv : 0 < v.length) (h : ∀ x ∈ v, x ≤ M) :
    trimmedMeanOf v ≤ M := by
  have hlen : 0 < (trimmedOf v).length := by rw [trimmedOf_length]; omega
  have hb : ∀ x ∈ trimmedOf v, x ≤ M := fun x hx => h x (trimmedOf_subset v hx)
  have hsum : (trimmedOf v).sum ≤ ((trimmedOf v).length : ℚ) * M := by
    have hs := List.sum_le_card_nsmul (trimmedOf v) M hb
    rwa [nsmul_eq_mul] at hs
  unfold trimmedMeanOf
  rw [div_le_iff₀ (by exact_mod_cast hlen)]
  linarith

theorem keptResults_subset (s : List ℚ) : keptResults s ⊆ s := by
  simp only [keptResults]
  split_ifs
  · intro x hx
    exact (List.mem_filter.mp hx).1
  · exact fun x hx => hx

theorem keptResults_length (s : List ℚ) (h : minValidResults ≤ s.length) :
    minValidResults ≤ (keptResults s).length := by
  simp only [keptResults]
  split_ifs with hf
  · exact hf
  · exact h

theorem validResultsOf_subset (l : List ℚ) : ∀ x ∈ validResultsOf l, x ∈ l := by
  intro x hx
  have hs := keptResults_subset (List.insertionSort (· ≤ ·) l) hx
  exact (List.perm_insertionSort (· ≤ ·) l).mem_iff.mp hs

theorem validResultsOf_length (l : List ℚ) (h : minValidResults ≤ l.length) :
    minValidResults ≤ (validResultsOf l).length := by
  unfold validResultsOf
  apply keptResults_length
  rw [(List.perm_insertionSort (· ≤ ·) l).length_eq]
  exact h

theorem le_stableDurationOf (v : List ℚ) (m : ℚ) (hv : 0 < v.length)
    (h : ∀ x ∈ v, m ≤ x) : m ≤ stableDurationOf v := by
  unfold stableDurationOf
  split_ifs
  · exact le_trimmedMeanOf v m hv h
  · exact le_medianOf v m hv h
  · exact le_medianOf v m hv h

theorem stableDurationOf_le (v : List ℚ) (M : ℚ) (hv : 0 < v.length)
    (h : ∀ x ∈ v, x ≤ M) : stableDurationOf v ≤ M := by
  unfold stableDurationOf
  split_ifs
  · exact trimmedMeanOf_le v M hv h
  · exact medianOf_le v M hv h
  · exact medianOf_le v M hv h

/-- C10: whenever the benchmark returns a non-null stable duration, that
duration lies between the minimum and maximum of the valid recorded round
durations — every lower bound of the valid samples bounds it below and
every upper bound bounds it above. -/
theorem claim_C10_duration_in_range (rounds : List (Option ℚ)) (d : ℚ)
    (h : (runCPUStatsBenchmark (Except.ok rounds)).duration = some d) :
    (∀ m, (∀ x ∈ collectValidSamples rounds, m ≤ x) → m ≤ d) ∧
    (∀ M, (∀ x ∈ collectValidSamples rounds, x ≤ M) → d ≤ M) := by
  have h' : (computeStats (collectValidSamples rounds)).duration = some d := h
  set l := collectValidSamples rounds with hl
  unfold computeStats at h'
  by_cases h5 : l.length < minValidResults
  · rw [if_pos h5] at h'
    exact absurd h' (by simp)
  · rw [if_neg h5] at h'
    have hd : stableDurationOf (validResultsOf l) = d := by simpa using h'
    have h5' : minValidResults ≤ l.length := Nat.not_lt.mp h5
    have hvlen : 0 < (validResultsOf l).length := by
      have hv := validResultsOf_length l h5'
      unfold minValidResults at hv
      omega
    constructor
    · intro m hm
      rw [← hd]
      exact le_stableDurationOf (validResultsOf l) m hvlen
        (fun x hx => hm x (validResultsOf_subset l x hx))
    · intro M hM
      rw [← hd]
      exact stableDurationOf_le (validResultsOf l) M hvlen
        (fun x hx => hM x (validResultsOf_subset l x hx))

/-- Five rounds of ten milliseconds each. -/
def tenMsRounds : List (Option ℚ) := [some 10, some 10, some 10, some 10, some 10]

/-- C10 witness: on five 10ms rounds the verdict duration is 10, which the
bounds of the theorem pin between 9 and 11. -/
theorem claim_C10_duration_in_range_witness : (9 : ℚ) ≤ 10 ∧ (10 : ℚ) ≤ 11 :=
  ⟨(claim_C10_duration_in_range tenMsRounds 10 (by with_unfolding_all rfl)).1 9
      (by with_unfolding_all decide),
   (claim_C10_duration_in_range tenMsRounds 10 (by with_unfolding_all rfl)).2 11
      (by with_unfolding_all decide)⟩

end DeviceService
